import Mathlib

/-!
A verification development for the Task-Master repository, focused on its
AI-flow layer (sprint-planner flow, scope-creep-detector flow), the
sprint-planner client page, and the Firestore task server actions.

JavaScript strings are modelled as `List Char` (`Str`); `String` literals are
converted with `str`. Fallible code is modelled with `Except`; the hosted
language model is an explicit parameter `Str → Except Str (Option output)`
(a thrown transport exception, a response with no output object, or a
structured output).
-/

set_option maxRecDepth 100000
set_option maxHeartbeats 1000000

/-- JavaScript strings modelled as lists of characters. -/
abbrev Str := List Char

/-- Conversion from Lean string literals into the `Str` model. -/
def str (s : String) : Str := s.data

/-- `hasPrefixL p s` holds when `p` is a (leading) prefix of `s`;
models `String.prototype.startsWith`. -/
def hasPrefixL : Str → Str → Bool
  | [], _ => true
  | _ :: _, [] => false
  | a :: as, b :: bs => a = b && hasPrefixL as bs

/-- `containsSub n s` holds when `n` occurs as a contiguous substring of `s`;
models `String.prototype.includes`. -/
def containsSub (needle : Str) : Str → Bool
  | [] => hasPrefixL needle []
  | c :: cs => hasPrefixL needle (c :: cs) || containsSub needle cs

/-- Models `String.prototype.toLowerCase` (ASCII range, which covers every
string the code compares case-insensitively). -/
def lowerStr (s : Str) : Str := s.map Char.toLower

/-- The whitespace class trimmed by `String.prototype.trim` (ASCII part plus
no-break space; the code only ever trims task-list lines). -/
def isJsWs (c : Char) : Bool :=
  c = ' ' || c = '\t' || c = '\n' || c = '\r' || c = '\x0b' || c = '\x0c' || c = ' '

/-- Models `String.prototype.trim`: drop leading and trailing whitespace. -/
def jsTrim (s : Str) : Str :=
  ((s.dropWhile isJsWs).reverse.dropWhile isJsWs).reverse

/-- Models `String.prototype.split('\n')`: `""` splits to `[""]`, and every
`'\n'` separates two (possibly empty) pieces. -/
def jsSplitNL : Str → List Str
  | [] => [[]]
  | c :: cs =>
    match jsSplitNL cs with
    | [] => [[c]]
    | l :: ls => if c = '\n' then [] :: l :: ls else (c :: l) :: ls

/-- Models `Array.prototype.join('\n')`. -/
def joinNL : List Str → Str
  | [] => []
  | [l] => l
  | l :: l2 :: ls => l ++ '\n' :: joinNL (l2 :: ls)

/-- The stateful filter inside `deduplicateTasks` (src/unnamed/part_006,
lines 31-39): a line is kept iff it is non-blank and not in the `seen` set;
kept lines are added to `seen`. -/
def dedupeFilter (seen : List Str) : List Str → List Str
  | [] => []
  | l :: ls =>
    if l = [] ∨ l ∈ seen then dedupeFilter seen ls
    else l :: dedupeFilter (l :: seen) ls

/-- `deduplicateTasks` (src/unnamed/part_006, lines 30-41): split on
newlines, trim each line, drop blank and already-seen lines, re-join. -/
def deduplicateTasks (tasksText : Str) : Str :=
  joinNL (dedupeFilter [] ((jsSplitNL tasksText).map jsTrim))

/-- Spec-side description of first-occurrence deduplication (kept separate
from the code embedding so the two can be compared): fold left, appending
each line the first time it is seen. -/
def specFirstOccur (ls : List Str) : List Str :=
  ls.foldl (fun acc l => if l ∈ acc then acc else acc ++ [l]) []

/-- JavaScript string conversion of a number (`String(n)`, as interpolated by
the template engine); the repository only ever renders integral values. -/
def intToStr (n : Int) : Str := (toString n).data

/-- JavaScript `v || d` for an optional numeric value (`task.effort || 0`):
`undefined` and `0` are falsy. -/
def jsNumOr (v : Option Int) (d : Int) : Int :=
  match v with
  | Option.some n => if n = 0 then d else n
  | Option.none => d

/-- JavaScript `v || d` for a string value (`task.title || "Untitled Task"`):
the empty string is falsy. -/
def jsStrOr (v : Str) (d : Str) : Str := if v = [] then d else v

namespace TaskMaster

/-- Input record of the sprint-planner flow (`SprintPlanInputSchema`,
src/unnamed/part_006 lines 14-20): only `tasksText` is required; the schema
itself places no constraint beyond the field types. -/
structure SprintPlanInput where
  tasksText : Str
  sprintDuration : Option Str
  teamSize : Option Str
  teamStoryPointCapacity : Option Int
  sprintGoal : Option Str
deriving DecidableEq, Repr

/-- Output record of the sprint-planner flow (`SprintPlanOutputSchema`,
src/unnamed/part_006 lines 23-26). -/
structure SprintPlanOutput where
  sprintPlan : Str
  warningsOrSuggestions : Option Str
deriving DecidableEq, Repr

/-- A failure surfaced by a flow: either a schema validation error naming the
offending field, or a thrown JavaScript `Error` carrying a message. -/
inductive FlowFailure where
  | validation (field : Str) (msg : Str)
  | thrown (msg : Str)
deriving DecidableEq, Repr

/-- A Handlebars `{{#if v}} pre v post {{/if}}` section over an optional
string field: rendered only when the field is present and truthy (non-empty);
the value itself is interpolated between `pre` and `post`. -/
def optStrSection (pre : Str) (v : Option Str) (post : Str) : Str :=
  match v with
  | Option.none => []
  | Option.some s => if s = [] then [] else pre ++ s ++ post

/-- A Handlebars `{{#if v}} pre v post {{/if}}` section over an optional
numeric field: `undefined` and `0` are both falsy, so the section is rendered
only for a present non-zero value. -/
def optNumSection (pre : Str) (v : Option Int) (post : Str) : Str :=
  match v with
  | Option.none => []
  | Option.some n => if n = 0 then [] else pre ++ intToStr n ++ post

/-- The rendered sprint-planner prompt (`sprintPlannerPrompt` template,
src/unnamed/part_006 lines 82-132): fixed text with four conditional
sections for the optional fields and the task list interpolated verbatim. -/
def renderSprintPrompt (i : SprintPlanInput) : Str :=
  str "You are an expert sprint planning assistant. Given a list of upcoming tasks with their priorities and estimated story points (SP), and information about the team\x27s sprint, create an optimal sprint plan.\n\n## Inputs:\n\n"
  ++ optStrSection (str "- Sprint Duration: ") i.sprintDuration (str "\n")
  ++ optStrSection (str "- Team Size: ") i.teamSize (str "\n")
  ++ optNumSection (str "- Team Capacity: ") i.teamStoryPointCapacity (str " story points per sprint\n")
  ++ optStrSection (str "- Sprint Goal: ") i.sprintGoal (str "\n")
  ++ str "\n### Task List:\n"
  ++ i.tasksText
  ++ str "\n\nEach task in the Task List is described in the format:\n<Task Title> – <Priority: High/Medium/Low> – <Story Points: number>\n(If priority is \"N/A\" or story points are \"0\" for some tasks, acknowledge this and proceed with planning based on available information.)\n\n## Your Goal:\n\n1. Select the best combination of tasks to fit within the given capacity (if provided), prioritizing high-priority tasks and tasks that align with the sprint goal (if provided).\n2. If story points are available for tasks and a team story point capacity is given, use these as the primary measure for fitting tasks into the sprint. If story points are not consistently available, or capacity is described qualitatively (e.g., team size and duration), make a reasonable judgment.\n3. Output a markdown-formatted response with these sections exactly as follows:\n\n---\n\n## Sprint Plan\n[List selected tasks, each on a new line. For each task, include its title, priority, and story points. Briefly (1 sentence) describe the purpose or value of including this task in the sprint. If a task was vague, note that.]\n\n## Deferred Tasks\n[List tasks not included in the sprint plan, especially if they were high or medium priority but couldn\x27t fit due to capacity constraints or other reasons. State the reason for deferral if clear (e.g., \"Exceeds capacity\", \"Lower priority than selected tasks\"). If no tasks are deferred, explicitly state \"N/A\" or \"None\".]\n\n## Warnings & Suggestions\n[Provide actionable tips. For example:\n- Suggest breaking down very large tasks (e.g., tasks with SP > 13, or significantly larger than others).\n- Identify potential high load on the team if the plan is very ambitious.\n- Note if critical information (like consistent story points or clear priorities) was missing for many tasks, making planning difficult.\n- Suggest clarifying ambiguous tasks.\n- If the sprint goal was provided and some selected tasks don\x27t align well, mention this as a point for discussion.]\n\n---\n\nOnly include markdown text in the response, starting with \"## Sprint Plan\". Do not invent details not provided in the inputs.\nStructure your entire response strictly according to the SprintPlanOutputSchema. The \x27sprintPlan\x27 field in the output schema should contain the \"## Sprint Plan\" and \"## Deferred Tasks\" sections. The \x27warningsOrSuggestions\x27 field should contain the \"## Warnings & Suggestions\" section.\n"

/-- Message of the error thrown by `sprintPlannerFlow` when the model call
yields no output object (src/unnamed/part_006 line 149). -/
def sprintEmptyMsg : Str :=
  str "AI_EMPTY_RESPONSE: AI did not return a valid plan. The output was empty."

/-- Message of the error thrown by `sprintPlannerFlow` when the output lacks
the required heading (src/unnamed/part_006 line 155). -/
def sprintFormatMsg : Str :=
  str "AI_FORMAT_ERROR: AI response is missing the required \x27## Sprint Plan\x27 heading. This might indicate an unexpected AI output structure or a problem with the AI model\x27s adherence to the output schema."

/-- The body of `sprintPlannerFlow` after the model call (src/unnamed/part_006
lines 146-161): a thrown transport error is re-thrown, a missing output object
becomes `AI_EMPTY_RESPONSE`, an output whose `sprintPlan` does not contain
`"## Sprint Plan"` becomes `AI_FORMAT_ERROR`, otherwise the output is
returned unchanged. -/
def sprintModelResult :
    Except Str (Option SprintPlanOutput) → Except FlowFailure SprintPlanOutput
  | Except.error m => Except.error (FlowFailure.thrown m)
  | Except.ok Option.none => Except.error (FlowFailure.thrown sprintEmptyMsg)
  | Except.ok (Option.some output) =>
    if containsSub (str "## Sprint Plan") output.sprintPlan then Except.ok output
    else Except.error (FlowFailure.thrown sprintFormatMsg)

/-- `sprintPlannerFlow` (src/unnamed/part_006 lines 135-163), with the hosted
model as an explicit parameter applied to the rendered prompt. The flow input
schema `SprintPlanInputSchema` imposes no constraint beyond field types, so no
validation branch exists. -/
def sprintPlannerFlow (model : Str → Except Str (Option SprintPlanOutput))
    (input : SprintPlanInput) : Except FlowFailure SprintPlanOutput :=
  sprintModelResult (model (renderSprintPrompt input))

/-- The flow input built by the `suggestSprintPlan` wrapper (src/unnamed/
part_006 lines 49-52): the task text is deduplicated, other fields unchanged. -/
def sprintFlowInput (input : SprintPlanInput) : SprintPlanInput :=
  { input with tasksText := deduplicateTasks input.tasksText }

/-- `suggestSprintPlan` (src/unnamed/part_006 lines 43-73): deduplicates the
task list and invokes `sprintPlannerFlow` (an empty task list only produces a
console warning and is still forwarded). -/
def suggestSprintPlan (model : Str → Except Str (Option SprintPlanOutput))
    (input : SprintPlanInput) : Except FlowFailure SprintPlanOutput :=
  sprintPlannerFlow model (sprintFlowInput input)

/-- Whether an error message triggers the service-unavailable classification
(src/unnamed/part_006 line 61): it contains `"503"`, or case-insensitively
`"model is overloaded"` or `"service unavailable"`. -/
def sprintServiceCond (m : Str) : Bool :=
  containsSub (str "503") m
    || containsSub (str "model is overloaded") (lowerStr m)
    || containsSub (str "service unavailable") (lowerStr m)

/-- A match of the regex `/50\d|overloaded|unavailable/i` at the start of `s`
(the three alternatives begin with distinct letters, so at most one applies). -/
def svcAt (s : Str) : Option Str :=
  if hasPrefixL (str "overloaded") (lowerStr s) then Option.some (s.take 10)
  else if hasPrefixL (str "unavailable") (lowerStr s) then Option.some (s.take 11)
  else
    match s with
    | '5' :: '0' :: c :: _ => if c.isDigit then Option.some ['5', '0', c] else Option.none
    | _ => Option.none

/-- The first (leftmost) match of `/50\d|overloaded|unavailable/i` in `s`,
as used to extract the service-error detail (src/unnamed/part_006 line 62). -/
def svcFirstMatch : Str → Option Str
  | [] => Option.none
  | c :: cs =>
    match svcAt (c :: cs) with
    | Option.some m => Option.some m
    | Option.none => svcFirstMatch cs

/-- Fallback user message of the `suggestSprintPlan` catch block
(src/unnamed/part_006 line 59). -/
def sprintDefaultErrMsg : Str :=
  str "An unexpected error occurred while generating the sprint plan. Please check server console for details and try again."

/-- The service-unavailable user message (src/unnamed/part_006 lines 62-64). -/
def sprintServiceMsg (m : Str) : Str :=
  str "The AI service is currently overloaded or unavailable ("
    ++ (svcFirstMatch m).getD (str "Error")
    ++ str "). Please try again in a few moments."

/-- The error-message classification of the `suggestSprintPlan` catch block
(src/unnamed/part_006 lines 59-70); the sprint-planner page repeats the same
branch structure on its side (src/src/app/sprint-planner/page.tsx
lines 131-139). -/
def classifySprintError (m : Str) : Str :=
  if sprintServiceCond m then sprintServiceMsg m
  else if hasPrefixL (str "AI_EMPTY_RESPONSE:") m || hasPrefixL (str "AI_FORMAT_ERROR:") m then m
  else if m = [] then sprintDefaultErrMsg
  else m

/-- The sprint-planner page client input schema
(`SprintPlanInputClientSchema`, src/src/app/sprint-planner/page.tsx
lines 23-32): the task text must be non-empty and the capacity, when present,
non-negative. -/
def sprintClientValidate (input : SprintPlanInput) : Except FlowFailure SprintPlanInput :=
  if input.tasksText = [] then
    Except.error (FlowFailure.validation (str "tasksText") (str "Tasks text cannot be empty."))
  else
    match input.teamStoryPointCapacity with
    | Option.some n =>
      if n < 0 then
        Except.error (FlowFailure.validation (str "teamStoryPointCapacity")
          (str "Story points must be non-negative."))
      else Except.ok input
    | Option.none => Except.ok input

/-- The sprint-planner page result slot after `onSubmit` completes
(src/src/app/sprint-planner/page.tsx lines 116-150): the slot is cleared
before the call, set to the response on success, and reset to `null` in the
catch branch; the previous slot value is never reused. -/
def pageOnSubmit (result : Except FlowFailure SprintPlanOutput)
    (_prevSlot : Option SprintPlanOutput) : Option SprintPlanOutput :=
  match result with
  | Except.ok r => Option.some r
  | Except.error _ => Option.none

end TaskMaster

namespace TaskMaster

/-- The four-point creep classification enum (`ScopeCreepOutputSchema`,
src/src/ai/flows/scope-creep-detector-flow.ts line 23). -/
inductive CreepLevel where
  | None | Low | Moderate | High
deriving DecidableEq, Repr

/-- Input record of the scope-creep flow (`ScopeCreepInputSchema`,
src/src/ai/flows/scope-creep-detector-flow.ts lines 14-18):
`currentTasksText` carries a `min(1)` constraint. -/
structure ScopeCreepInput where
  currentTasksText : Str
  originalTasksText : Option Str
  sprintGoal : Option Str
deriving DecidableEq, Repr

/-- Output record of the scope-creep flow (`ScopeCreepOutputSchema`,
src/src/ai/flows/scope-creep-detector-flow.ts lines 21-25). -/
structure ScopeCreepOutput where
  analysisReport : Str
  creepLevel : CreepLevel
  recommendations : Option Str
deriving DecidableEq, Repr

/-- The rendered scope-creep prompt (`scopeCreepDetectorPrompt` template,
src/src/ai/flows/scope-creep-detector-flow.ts lines 39-99): fixed analysis
instructions, the current tasks interpolated unconditionally, and two
conditional sections for the optional baseline tasks and sprint goal. -/
def renderScopeCreepPrompt (i : ScopeCreepInput) : Str :=
  str "You are an AI assistant specializing in Agile project management, specifically in detecting sprint scope creep.\nYour goal is to help teams identify when a sprint\x27s scope is expanding beyond its original commitments or capacity.\n\nYou will be provided with:\n1.  **Current Sprint Tasks:** A list of tasks currently planned or being worked on in the sprint. Tasks might include implicit priority or effort.\n2.  **Original Sprint Tasks (Optional):** The list of tasks that were committed to at the beginning of the sprint. This is the baseline.\n3.  **Sprint Goal (Optional):** The main objective of the sprint.\n\nYour Analysis Steps:\n1.  **Baseline Comparison (if Original Sprint Tasks provided):**\n    a.  Compare \x27Current Sprint Tasks\x27 against \x27Original Sprint Tasks\x27.\n    b.  Identify tasks in the \x27Current\x27 list that are NOT in the \x27Original\x27 list. These are \"Newly Added Tasks.\"\n    c.  For each newly added task, assess its relevance to the \x27Sprint Goal\x27 (if provided). Note if it seems to support or detract from the goal.\n    d.  Comment on any significant increase in the total number of tasks or perceived workload due to these additions.\n2.  **Current Scope Assessment (if Original Sprint Tasks NOT provided):**\n    a.  Analyze the \x27Current Sprint Tasks\x27 list in isolation.\n    b.  Look for:\n        - A very high volume of tasks relative to typical sprint capacity (use general knowledge if capacity isn\x27t specified).\n        - Tasks that seem unrelated to the \x27Sprint Goal\x27 (if provided).\n        - A mix of many low-priority items if high-priority items are also present and numerous.\n    c.  Clearly state that without an original baseline, \"creep\" is harder to definitively quantify, but you can highlight potential risks of overload or lack of focus.\n\nOutput Generation (Strictly follow the schema):\n\n-   **analysisReport (Markdown Format):**\n    *   Start with a concise summary statement of your findings regarding scope creep.\n    *   If \x27Original Sprint Tasks\x27 were provided and new tasks identified:\n        *   Create a \"## Newly Added Tasks\" section.\n        *   List each new task (e.g., using bullet points).\n        *   Briefly comment on its potential impact (e.g., \"Adds X effort,\" \"May divert focus from goal\") and alignment with the \x27Sprint Goal\x27.\n    *   If \x27Original Sprint Tasks\x27 were NOT provided:\n        *   Describe the current scope based on \x27Current Sprint Tasks\x27.\n        *   Point out any observations about its size, focus, or potential risks (e.g., \"The current scope includes X tasks. Without a baseline, it\x27s hard to measure creep, but ensure these align with the team\x27s capacity and the sprint goal.\").\n    *   If a \x27Sprint Goal\x27 was provided, mention any tasks (new or original) that seem to deviate significantly from it.\n\n-   **creepLevel (Enum: \"None\", \"Low\", \"Moderate\", \"High\"):**\n    *   **\"None\":** Current tasks align well with original (if provided) and goal. Scope seems stable and focused.\n    *   **\"Low\":** Minor additions, mostly aligned with the goal. Slight increase in work.\n    *   **\"Moderate\":** Several new tasks, some potentially misaligned or of lower priority. Noticeable increase in workload or potential distraction from the goal.\n    *   **\"High\":** Significant number of new tasks, many misaligned or of questionable priority. Clear signs of potential overload, lack of focus, or risk to the sprint goal. If original tasks are missing but current tasks appear excessive, unfocused, or contain many new unexpected items, this can also be \"Moderate\" to \"High\".\n\n-   **recommendations (Optional string):**\n    *   If creepLevel is \"Moderate\" or \"High\", provide 1-2 brief, actionable recommendations.\n    *   Examples: \"Re-evaluate newly added tasks against the sprint goal and team capacity.\", \"Discuss with the Product Owner if these new tasks are critical for the current sprint.\", \"Consider moving non-critical new items to the backlog to protect the sprint goal.\"\n\nInput Details:\nCurrent Sprint Tasks:\n"
  ++ i.currentTasksText
  ++ str "\n\n"
  ++ optStrSection (str "Original Sprint Tasks:\n") i.originalTasksText (str "\n")
  ++ str "\n"
  ++ optStrSection (str "Sprint Goal:\n") i.sprintGoal (str "\n")
  ++ str "\nRemember to structure your entire response strictly according to the ScopeCreepOutputSchema (analysisReport as Markdown, creepLevel as one of the enum values, and optional recommendations).\n"

/-- Message of the error thrown by `scopeCreepDetectorFlow` when the model
call yields no output object (scope-creep-detector-flow.ts line 111). -/
def scopeEmptyMsg : Str := str "AI did not return a valid scope creep analysis."

/-- Validation message of the `min(1)` constraint on `currentTasksText`
(scope-creep-detector-flow.ts line 15). -/
def scopeRequiredMsg : Str := str "Current sprint tasks cannot be empty."

/-- `scopeCreepDetectorFlow` (scope-creep-detector-flow.ts lines 102-115):
the flow input schema rejects an empty `currentTasksText` before any model
call; otherwise the model is invoked on the rendered prompt, a missing output
object raises the empty-response error, and any structured output is returned
unchanged (no check is applied to `creepLevel`). -/
def scopeCreepDetectorFlow (model : Str → Except Str (Option ScopeCreepOutput))
    (input : ScopeCreepInput) : Except FlowFailure ScopeCreepOutput :=
  if input.currentTasksText = [] then
    Except.error (FlowFailure.validation (str "currentTasksText") scopeRequiredMsg)
  else
    match model (renderScopeCreepPrompt input) with
    | Except.error m => Except.error (FlowFailure.thrown m)
    | Except.ok Option.none => Except.error (FlowFailure.thrown scopeEmptyMsg)
    | Except.ok (Option.some o) => Except.ok o

/-- `detectScopeCreep` (scope-creep-detector-flow.ts lines 28-30): a direct
pass-through to the flow. -/
def detectScopeCreep (model : Str → Except Str (Option ScopeCreepOutput))
    (input : ScopeCreepInput) : Except FlowFailure ScopeCreepOutput :=
  scopeCreepDetectorFlow model input

/-- The task priority enum (src/unnamed/part_002, `Task` interface). -/
inductive TaskPriority where
  | Low | Medium | High | Critical
deriving DecidableEq, Repr

/-- The string form of a priority, as stored and interpolated. -/
def priorityStr : TaskPriority → Str
  | TaskPriority.Low => str "Low"
  | TaskPriority.Medium => str "Medium"
  | TaskPriority.High => str "High"
  | TaskPriority.Critical => str "Critical"

/-- The `Task` entity (src/unnamed/part_002): `category`, `assignee`,
`priority` and `effort` are optional; `createdAt` is a timestamp. -/
structure Task where
  id : Str
  title : Str
  description : Str
  status : Str
  category : Option Str
  createdAt : Int
  assignee : Option Str
  projectId : Str
  priority : Option TaskPriority
  effort : Option Int
deriving DecidableEq, Repr

/-- The line built for one task by `handleFetchProjectTasks`
(src/src/app/sprint-planner/page.tsx lines 90-95):
`title – priority – effort` with JavaScript `||` substitutions
(`"Untitled Task"` for a falsy title, `"N/A"` for a missing priority,
`0` for a missing or zero effort). -/
def formatTodoLine (t : Task) : Str :=
  jsStrOr t.title (str "Untitled Task")
    ++ str " – "
    ++ (match t.priority with
        | Option.some p => priorityStr p
        | Option.none => str "N/A")
    ++ str " – "
    ++ intToStr (jsNumOr t.effort 0)

/-- The task-list text written into the form by `handleFetchProjectTasks`
(src/src/app/sprint-planner/page.tsx lines 85-106): the fetched project tasks
are filtered to status `"To Do"`, each formatted with `formatTodoLine`, and
joined by newlines (both empty cases set the field to the empty string, which
coincides with joining the empty list). -/
def loadedTasksText (projectTasks : List Task) : Str :=
  joinNL ((projectTasks.filter (fun t => t.status = str "To Do")).map formatTodoLine)

/-- The line format the claim describes, built from the claim words alone:
the task title, then the priority with `"N/A"` substituted when missing, then
the effort with `0` substituted when missing. -/
def claimTodoLine (t : Task) : Str :=
  t.title
    ++ str " – "
    ++ (match t.priority with
        | Option.some p => priorityStr p
        | Option.none => str "N/A")
    ++ str " – "
    ++ intToStr (t.effort.getD 0)

/-- A project document as read by the task actions: only `ownerId` is ever
consulted (src/src/lib/actions/taskActions.ts). -/
structure ProjectDoc where
  ownerId : Str
  name : Str
deriving DecidableEq, Repr

/-- The Firestore state visible to the task actions: project documents keyed
by project id, and task documents keyed by (project id, task id). -/
structure FirestoreState where
  projects : List (Str × ProjectDoc)
  tasks : List (Str × Str × Task)
deriving DecidableEq, Repr

/-- `getDoc` on `projects/{projectId}` followed by `exists()`. -/
def getProjectDoc (db : FirestoreState) (projectId : Str) : Option ProjectDoc :=
  (db.projects.find? (fun p => p.fst = projectId)).map Prod.snd

/-- Reconstruction of a `Task` from a stored document: the id comes from the
document id and the project id from the collection path
(src/src/lib/actions/taskActions.ts lines 102-116). -/
def taskFromDoc (projectId docId : Str) (t : Task) : Task :=
  { t with id := docId, projectId := projectId }

/-- Insertion step for ordering by `createdAt` descending. -/
def insertDesc (t : Task) : List Task → List Task
  | [] => [t]
  | u :: us => if u.createdAt ≤ t.createdAt then t :: u :: us else u :: insertDesc t us

/-- `orderBy('createdAt', 'desc')` on the task query
(src/src/lib/actions/taskActions.ts line 98). -/
def sortByCreatedDesc : List Task → List Task
  | [] => []
  | t :: ts => insertDesc t (sortByCreatedDesc ts)

/-- `getTasksByProjectId` (src/src/lib/actions/taskActions.ts lines 86-122):
empty ids, a missing project, or an `ownerId` different from the caller all
return `[]` without touching the task collection; otherwise the project tasks
are read, reconstructed and ordered by creation time descending. -/
def getTasksByProjectId (db : FirestoreState) (projectId userId : Str) : List Task :=
  if userId = [] ∨ projectId = [] then []
  else
    match getProjectDoc db projectId with
    | Option.none => []
    | Option.some proj =>
      if proj.ownerId ≠ userId then []
      else
        sortByCreatedDesc
          ((db.tasks.filter (fun e => e.fst = projectId)).map
            (fun e => taskFromDoc e.fst e.snd.fst e.snd.snd))

/-- `updateTask` (src/src/lib/actions/taskActions.ts lines 151-174): empty
ids, a missing project, or a foreign owner return `null` and leave the store
unchanged; otherwise the task document is upserted (`setDoc` with merge over
the full field set) and the input task is returned. -/
def updateTask (db : FirestoreState) (taskData : Task) (userId : Str) :
    Option Task × FirestoreState :=
  if userId = [] ∨ taskData.projectId = [] ∨ taskData.id = [] then (Option.none, db)
  else
    match getProjectDoc db taskData.projectId with
    | Option.none => (Option.none, db)
    | Option.some proj =>
      if proj.ownerId ≠ userId then (Option.none, db)
      else
        (Option.some taskData,
          { db with tasks :=
              (db.tasks.filter
                (fun e => ¬(e.fst = taskData.projectId ∧ e.snd.fst = taskData.id)))
              ++ [(taskData.projectId, taskData.id, taskData)] })

/-- `deleteTask` (src/src/lib/actions/taskActions.ts lines 176-198): empty
ids, a missing project, or a foreign owner return `false` and leave the store
unchanged; otherwise the task document is deleted and `true` returned. -/
def deleteTask (db : FirestoreState) (projectId taskId userId : Str) :
    Bool × FirestoreState :=
  if userId = [] ∨ projectId = [] ∨ taskId = [] then (false, db)
  else
    match getProjectDoc db projectId with
    | Option.none => (false, db)
    | Option.some proj =>
      if proj.ownerId ≠ userId then (false, db)
      else
        (true,
          { db with tasks :=
              db.tasks.filter (fun e => ¬(e.fst = projectId ∧ e.snd.fst = taskId)) })

end TaskMaster

namespace TaskMaster

/-! General lemmas about the string and deduplication helpers. -/

theorem jsSplitNL_ne_nil (s : Str) : jsSplitNL s ≠ [] := by
  cases s with
  | nil => simp [jsSplitNL]
  | cons c cs =>
    cases h : jsSplitNL cs with
    | nil => simp [jsSplitNL, h]
    | cons l ls =>
      simp only [jsSplitNL, h]
      split <;> simp

theorem mem_jsSplitNL_no_newline (s : Str) : ∀ l ∈ jsSplitNL s, '\n' ∉ l := by
  induction s with
  | nil =>
    intro l hl
    simp only [jsSplitNL, List.mem_singleton] at hl
    simp [hl]
  | cons c cs ih =>
    intro l hl
    cases h : jsSplitNL cs with
    | nil => exact absurd h (jsSplitNL_ne_nil cs)
    | cons m ms =>
      simp only [jsSplitNL, h] at hl
      have hm : '\n' ∉ m := ih m (h ▸ List.mem_cons_self m ms)
      have hms : ∀ x ∈ ms, '\n' ∉ x := fun x hx => ih x (h ▸ List.mem_cons_of_mem m hx)
      by_cases hc : c = '\n'
      · rw [if_pos hc] at hl
        rcases List.mem_cons.mp hl with rfl | hl
        · simp
        · rcases List.mem_cons.mp hl with rfl | hl
          · exact hm
          · exact hms l hl
      · rw [if_neg hc] at hl
        rcases List.mem_cons.mp hl with rfl | hl
        · intro hmem
          rcases List.mem_cons.mp hmem with hh | hh
          · exact hc hh.symm
          · exact hm hh
        · exact hms l hl

theorem jsSplitNL_of_no_newline (l : Str) (hl : '\n' ∉ l) : jsSplitNL l = [l] := by
  induction l with
  | nil => rfl
  | cons c cs ih =>
    have hc : c ≠ '\n' := fun e => hl (e ▸ List.mem_cons_self c cs)
    have hcs : '\n' ∉ cs := fun m => hl (List.mem_cons_of_mem _ m)
    rw [jsSplitNL, ih hcs]
    simp [hc]

theorem jsSplitNL_append_newline (l rest : Str) (hl : '\n' ∉ l) :
    jsSplitNL (l ++ '\n' :: rest) = l :: jsSplitNL rest := by
  induction l with
  | nil =>
    rw [List.nil_append, jsSplitNL]
    cases h : jsSplitNL rest with
    | nil => exact absurd h (jsSplitNL_ne_nil rest)
    | cons m ms => simp
  | cons c cs ih =>
    have hc : c ≠ '\n' := fun e => hl (e ▸ List.mem_cons_self c cs)
    have hcs : '\n' ∉ cs := fun m => hl (List.mem_cons_of_mem _ m)
    rw [List.cons_append, jsSplitNL, ih hcs]
    simp [hc]

theorem jsSplitNL_joinNL (L : List Str) (hne : L ≠ []) (h : ∀ l ∈ L, '\n' ∉ l) :
    jsSplitNL (joinNL L) = L := by
  induction L with
  | nil => exact absurd rfl hne
  | cons l ls ih =>
    cases ls with
    | nil =>
      rw [joinNL]
      exact jsSplitNL_of_no_newline l (h l (List.mem_cons_self _ _))
    | cons l2 ls2 =>
      rw [joinNL, jsSplitNL_append_newline l _ (h l (List.mem_cons_self _ _))]
      rw [ih (by simp) (fun x hx => h x (List.mem_cons_of_mem _ hx))]

theorem mem_dedupeFilter (ls : List Str) : ∀ (seen : List Str) (s : Str),
    s ∈ dedupeFilter seen ls ↔ s ≠ [] ∧ s ∈ ls ∧ s ∉ seen := by
  induction ls with
  | nil =>
    intro seen s
    simp [dedupeFilter]
  | cons l ls ih =>
    intro seen s
    rw [dedupeFilter]
    split
    · rename_i h
      rw [ih]
      constructor
      · rintro ⟨h1, h2, h3⟩
        exact ⟨h1, List.mem_cons_of_mem _ h2, h3⟩
      · rintro ⟨h1, h2, h3⟩
        rcases List.mem_cons.mp h2 with rfl | h2
        · rcases h with h | h
          · exact absurd h h1
          · exact absurd h h3
        · exact ⟨h1, h2, h3⟩
    · rename_i h
      push_neg at h
      obtain ⟨hl0, hlseen⟩ := h
      constructor
      · intro hmem
        rcases List.mem_cons.mp hmem with rfl | hmem
        · exact ⟨hl0, List.mem_cons_self _ _, hlseen⟩
        · obtain ⟨h1, h2, h3⟩ := (ih _ _).mp hmem
          exact ⟨h1, List.mem_cons_of_mem _ h2, fun hs => h3 (List.mem_cons_of_mem _ hs)⟩
      · rintro ⟨h1, h2, h3⟩
        by_cases hsl : s = l
        · subst hsl
          exact List.mem_cons_self _ _
        · rcases List.mem_cons.mp h2 with rfl | h2
          · exact absurd rfl hsl
          · refine List.mem_cons_of_mem _ ((ih _ _).mpr ⟨h1, h2, ?_⟩)
            intro hs
            rcases List.mem_cons.mp hs with hh | hh
            · exact hsl hh
            · exact h3 hh

theorem dedupeFilter_nodup (ls : List Str) : ∀ seen, (dedupeFilter seen ls).Nodup := by
  induction ls with
  | nil => intro seen; simp [dedupeFilter]
  | cons l ls ih =>
    intro seen
    rw [dedupeFilter]
    split
    · exact ih seen
    · refine List.nodup_cons.mpr ⟨?_, ih _⟩
      intro hmem
      exact ((mem_dedupeFilter _ _ _).mp hmem).2.2 (List.mem_cons_self _ _)

theorem dedupeFilter_eq_self (ls : List Str) : ∀ seen, ls.Nodup → (∀ l ∈ ls, l ≠ []) →
    (∀ l ∈ ls, l ∉ seen) → dedupeFilter seen ls = ls := by
  induction ls with
  | nil => intro seen _ _ _; rfl
  | cons l ls ih =>
    intro seen hnd hne hns
    rw [dedupeFilter, if_neg]
    · congr 1
      refine ih _ (List.nodup_cons.mp hnd).2 (fun x hx => hne x (List.mem_cons_of_mem _ hx)) ?_
      intro x hx hmem
      rcases List.mem_cons.mp hmem with rfl | hmem
      · exact (List.nodup_cons.mp hnd).1 hx
      · exact hns x (List.mem_cons_of_mem _ hx) hmem
    · push_neg
      exact ⟨hne l (List.mem_cons_self _ _), hns l (List.mem_cons_self _ _)⟩

theorem foldl_keepFirst (ls : List Str) : ∀ (acc seen : List Str),
    (∀ x, x ∈ seen ↔ x ∈ acc) →
    List.foldl (fun a l => if l ∈ a then a else a ++ [l]) acc
      (ls.filter (fun l => l ≠ [])) = acc ++ dedupeFilter seen ls := by
  induction ls with
  | nil => intro acc seen _; simp [dedupeFilter]
  | cons l ls ih =>
    intro acc seen hiff
    by_cases hl : l = []
    · subst hl
      rw [List.filter_cons_of_neg (by simp), dedupeFilter, if_pos (Or.inl rfl)]
      exact ih acc seen hiff
    · rw [List.filter_cons_of_pos (by simp [hl]), List.foldl_cons, dedupeFilter]
      by_cases hm : l ∈ seen
      · rw [if_pos ((hiff l).mp hm), if_pos (Or.inr hm)]
        exact ih acc seen hiff
      · have hacc : l ∉ acc := fun h => hm ((hiff l).mpr h)
        rw [if_neg hacc, if_neg (by push_neg; exact ⟨hl, hm⟩)]
        rw [ih (acc ++ [l]) (l :: seen) ?_]
        · rw [← List.append_cons]
        · intro x
          simp only [List.mem_cons, List.mem_append, List.mem_singleton, hiff x]
          tauto

theorem specFirstOccur_eq_dedupeFilter (ls : List Str) :
    specFirstOccur (ls.filter (fun l => l ≠ [])) = dedupeFilter [] ls := by
  have h := foldl_keepFirst ls [] [] (by simp)
  simpa [specFirstOccur] using h

theorem jsTrim_eq_rdrop (s : Str) :
    jsTrim s = List.rdropWhile isJsWs (List.dropWhile isJsWs s) := rfl

theorem jsTrim_idem (s : Str) : jsTrim (jsTrim s) = jsTrim s := by
  have hAA : List.dropWhile isJsWs (List.dropWhile isJsWs s) = List.dropWhile isJsWs s :=
    List.dropWhile_idempotent _ _
  have hpre : jsTrim s <+: List.dropWhile isJsWs s := by
    rw [jsTrim_eq_rdrop]
    exact List.rdropWhile_prefix _ _
  have hdw : List.dropWhile isJsWs (jsTrim s) = jsTrim s := by
    cases hB : jsTrim s with
    | nil => rfl
    | cons b B2 =>
      rw [List.dropWhile_cons, if_neg ?_]
      obtain ⟨t, ht⟩ := hpre
      rw [hB] at ht
      have hAcons : List.dropWhile isJsWs s = b :: (B2 ++ t) := by
        rw [← ht]; simp
      intro hb
      rw [hAcons, List.dropWhile_cons, if_pos hb] at hAA
      have h1 : (List.dropWhile isJsWs (B2 ++ t)).length = (B2 ++ t).length + 1 := by
        rw [hAA]; rfl
      have h2 := (List.dropWhile_suffix (l := B2 ++ t) isJsWs).length_le
      omega
  calc jsTrim (jsTrim s)
      = List.rdropWhile isJsWs (List.dropWhile isJsWs (jsTrim s)) := rfl
    _ = List.rdropWhile isJsWs (jsTrim s) := by rw [hdw]
    _ = List.rdropWhile isJsWs (List.rdropWhile isJsWs (List.dropWhile isJsWs s)) := by
        rw [jsTrim_eq_rdrop]
    _ = List.rdropWhile isJsWs (List.dropWhile isJsWs s) := List.rdropWhile_idempotent _ _
    _ = jsTrim s := (jsTrim_eq_rdrop s).symm

theorem mem_jsTrim (s : Str) : ∀ c ∈ jsTrim s, c ∈ s := by
  intro c hc
  have h1 : c ∈ List.dropWhile isJsWs s := by
    have hpre : jsTrim s <+: List.dropWhile isJsWs s := by
      rw [jsTrim_eq_rdrop]
      exact List.rdropWhile_prefix _ _
    exact hpre.subset hc
  exact (List.dropWhile_suffix isJsWs).subset h1

theorem map_eq_self_of_mem {α : Type} (l : List α) (f : α → α) (h : ∀ x ∈ l, f x = x) :
    l.map f = l := by
  induction l with
  | nil => rfl
  | cons a as ih =>
    rw [List.map_cons, h a (List.mem_cons_self _ _),
      ih (fun x hx => h x (List.mem_cons_of_mem _ hx))]

end TaskMaster

namespace TaskMaster

/-- C1: for every input to the sprint-plan flow, `suggestSprintPlan` prompts on
the deduplicated task list: the flow input joins a line list that has no
duplicates, contains a string iff it is a non-blank trimmed line of the input
(so blank lines are dropped), and equals the first-occurrence ordering of the
non-blank trimmed input lines. -/
theorem suggestSprintPlan_deduplicates
    (model : Str → Except Str (Option SprintPlanOutput)) (i : SprintPlanInput) :
    suggestSprintPlan model i = sprintPlannerFlow model (sprintFlowInput i)
    ∧ (sprintFlowInput i).tasksText
        = joinNL (dedupeFilter [] ((jsSplitNL i.tasksText).map jsTrim))
    ∧ (dedupeFilter [] ((jsSplitNL i.tasksText).map jsTrim)).Nodup
    ∧ (∀ s, s ∈ dedupeFilter [] ((jsSplitNL i.tasksText).map jsTrim)
          ↔ s ≠ [] ∧ s ∈ (jsSplitNL i.tasksText).map jsTrim)
    ∧ dedupeFilter [] ((jsSplitNL i.tasksText).map jsTrim)
        = specFirstOccur (((jsSplitNL i.tasksText).map jsTrim).filter (fun l => l ≠ [])) := by
  refine ⟨rfl, rfl, dedupeFilter_nodup _ _, ?_, (specFirstOccur_eq_dedupeFilter _).symm⟩
  intro s
  rw [mem_dedupeFilter]
  simp

/-- C10: `deduplicateTasks` is idempotent: applying it to its own output
returns the output unchanged. -/
theorem deduplicateTasks_idempotent (t : Str) :
    deduplicateTasks (deduplicateTasks t) = deduplicateTasks t := by
  set L := dedupeFilter [] ((jsSplitNL t).map jsTrim) with hLdef
  have hdt : deduplicateTasks t = joinNL L := rfl
  have hmemTrim : ∀ l ∈ L, ∃ y, y ∈ jsSplitNL t ∧ l = jsTrim y := by
    intro l hl
    obtain ⟨-, hmem, -⟩ := (mem_dedupeFilter _ _ _).mp hl
    obtain ⟨y, hy, hly⟩ := List.mem_map.mp hmem
    exact ⟨y, hy, hly.symm⟩
  have hne : ∀ l ∈ L, l ≠ [] := fun l hl => ((mem_dedupeFilter _ _ _).mp hl).1
  have hnn : ∀ l ∈ L, '\n' ∉ l := by
    intro l hl hnl
    obtain ⟨y, hy, rfl⟩ := hmemTrim l hl
    exact mem_jsSplitNL_no_newline t y hy (mem_jsTrim y _ hnl)
  have htrim : ∀ l ∈ L, jsTrim l = l := by
    intro l hl
    obtain ⟨y, hy, rfl⟩ := hmemTrim l hl
    exact jsTrim_idem y
  rw [hdt]
  by_cases hLnil : L = []
  · rw [hLnil]
    decide
  · show joinNL (dedupeFilter [] ((jsSplitNL (joinNL L)).map jsTrim)) = joinNL L
    rw [jsSplitNL_joinNL L hLnil hnn, map_eq_self_of_mem L jsTrim htrim,
      dedupeFilter_eq_self L [] (dedupeFilter_nodup _ _) hne (by simp)]

end TaskMaster

namespace TaskMaster

theorem take_one_append (a b : Str) (h : a ≠ []) : (a ++ b).take 1 = a.take 1 := by
  cases a with
  | nil => exact absurd rfl h
  | cons x xs => rfl

theorem sprintServiceMsg_ne_emptyMsg (m : Str) : sprintServiceMsg m ≠ sprintEmptyMsg := by
  intro h
  have h1 := congrArg (List.take 1) h
  rw [sprintServiceMsg] at h1
  rw [List.append_assoc, take_one_append _ _ (by decide)] at h1
  revert h1
  decide

/-- C2: for every model response whose `sprintPlan` field does not contain the
heading `"## Sprint Plan"`, the sprint-planner flow fails with the distinct
`AI_FORMAT_ERROR` failure and returns no output record. -/
theorem sprintFlow_formatError (input : SprintPlanInput) (o : SprintPlanOutput)
    (h : containsSub (str "## Sprint Plan") o.sprintPlan = false) :
    sprintPlannerFlow (fun _ => Except.ok (Option.some o)) input
        = Except.error (FlowFailure.thrown sprintFormatMsg)
    ∧ hasPrefixL (str "AI_FORMAT_ERROR:") sprintFormatMsg = true := by
  constructor
  · simp [sprintPlannerFlow, sprintModelResult, h]
  · decide

/-- Witness for C2 at a concrete malformed response. -/
theorem sprintFlow_formatError_witness :
    containsSub (str "## Sprint Plan") (str "no heading here") = false
    ∧ (sprintPlannerFlow (fun _ => Except.ok (Option.some ⟨str "no heading here", Option.none⟩))
          ⟨str "Task A – High – 3", Option.none, Option.none, Option.none, Option.none⟩
        = Except.error (FlowFailure.thrown sprintFormatMsg)
      ∧ hasPrefixL (str "AI_FORMAT_ERROR:") sprintFormatMsg = true) :=
  ⟨by decide, sprintFlow_formatError _ _ (by decide)⟩

/-- C3 (amended): a model call that returns no output object surfaces as the
empty-response failure in both flows, distinct in message from the
service-unavailable classification, which is triggered exactly by messages
containing `"503"`, `"model is overloaded"` or `"service unavailable"`
(case-insensitively); no result is defaulted in either case. -/
theorem emptyResponse_vs_serviceUnavailable
    (si : SprintPlanInput) (ci : ScopeCreepInput) (m : Str)
    (hci : ci.currentTasksText ≠ [])
    (hm : sprintServiceCond m = true) :
    suggestSprintPlan (fun _ => Except.ok Option.none) si
        = Except.error (FlowFailure.thrown sprintEmptyMsg)
    ∧ scopeCreepDetectorFlow (fun _ => Except.ok Option.none) ci
        = Except.error (FlowFailure.thrown scopeEmptyMsg)
    ∧ hasPrefixL (str "AI_EMPTY_RESPONSE:") sprintEmptyMsg = true
    ∧ classifySprintError sprintEmptyMsg = sprintEmptyMsg
    ∧ classifySprintError m = sprintServiceMsg m
    ∧ classifySprintError m ≠ classifySprintError sprintEmptyMsg
    ∧ sprintServiceCond sprintEmptyMsg = false
    ∧ sprintServiceCond scopeEmptyMsg = false
    ∧ m ≠ scopeEmptyMsg := by
  refine ⟨rfl, by simp [scopeCreepDetectorFlow, hci], by decide, by decide, ?_, ?_, by decide,
    by decide, ?_⟩
  · simp [classifySprintError, hm]
  · have h1 : classifySprintError m = sprintServiceMsg m := by simp [classifySprintError, hm]
    have h2 : classifySprintError sprintEmptyMsg = sprintEmptyMsg := by decide
    rw [h1, h2]
    exact sprintServiceMsg_ne_emptyMsg m
  · intro h
    rw [h] at hm
    have : sprintServiceCond scopeEmptyMsg = false := by decide
    rw [hm] at this
    exact Bool.noConfusion this

/-- Witness for C3 (amended) at a concrete transport exception mentioning 503. -/
theorem emptyResponse_vs_serviceUnavailable_witness :
    suggestSprintPlan (fun _ => Except.ok Option.none)
        ⟨str "Task A – High – 3", Option.none, Option.none, Option.none, Option.none⟩
        = Except.error (FlowFailure.thrown sprintEmptyMsg)
    ∧ scopeCreepDetectorFlow (fun _ => Except.ok Option.none)
        ⟨str "Task A", Option.none, Option.none⟩
        = Except.error (FlowFailure.thrown scopeEmptyMsg)
    ∧ hasPrefixL (str "AI_EMPTY_RESPONSE:") sprintEmptyMsg = true
    ∧ classifySprintError sprintEmptyMsg = sprintEmptyMsg
    ∧ classifySprintError (str "503 Service Unavailable")
        = sprintServiceMsg (str "503 Service Unavailable")
    ∧ classifySprintError (str "503 Service Unavailable")
        ≠ classifySprintError sprintEmptyMsg
    ∧ sprintServiceCond sprintEmptyMsg = false
    ∧ sprintServiceCond scopeEmptyMsg = false
    ∧ str "503 Service Unavailable" ≠ scopeEmptyMsg :=
  emptyResponse_vs_serviceUnavailable _ _ _ (by decide) (by decide)

/-- Counterexample for C3 as stated: the message `"Upstream overloaded"`
mentions `"overloaded"`, yet it is not classified as the service-unavailable
failure kind - the classifier passes it through unchanged, because the code
only matches the full phrases `"model is overloaded"` / `"service
unavailable"` (or `"503"`). -/
theorem serviceClassification_counterexample :
    containsSub (str "overloaded") (lowerStr (str "Upstream overloaded")) = true
    ∧ sprintServiceCond (str "Upstream overloaded") = false
    ∧ classifySprintError (str "Upstream overloaded") = str "Upstream overloaded"
    ∧ classifySprintError (str "Upstream overloaded")
        ≠ sprintServiceMsg (str "Upstream overloaded") := by
  refine ⟨by decide, by decide, by decide, by decide⟩

/-- C8: whenever the sprint-planner submission fails, the page stores `null`
in its result slot afterwards, regardless of any previously rendered output:
results are all-or-nothing. -/
theorem pageOnSubmit_failure_clears (e : FlowFailure) (prev : Option SprintPlanOutput) :
    pageOnSubmit (Except.error e) prev = Option.none := rfl

/-- C9: when the project does not exist or its owner differs from the caller,
`getTasksByProjectId` returns `[]`, `updateTask` returns `null`, and
`deleteTask` returns `false`, and neither mutation changes the store. -/
theorem taskActions_ownership (db : FirestoreState) (projectId taskId userId : Str)
    (t : Task) (hpid : t.projectId = projectId)
    (hown : ∀ p, getProjectDoc db projectId = Option.some p → p.ownerId ≠ userId) :
    getTasksByProjectId db projectId userId = []
    ∧ updateTask db t userId = (Option.none, db)
    ∧ deleteTask db projectId taskId userId = (false, db) := by
  refine ⟨?_, ?_, ?_⟩
  · rw [getTasksByProjectId]
    split
    · rfl
    · cases hpd : getProjectDoc db projectId with
      | none => simp only [hpd]
      | some p =>
        simp only [hpd]
        rw [if_pos (hown p hpd)]
  · rw [updateTask, hpid]
    split
    · rfl
    · cases hpd : getProjectDoc db projectId with
      | none => simp only [hpd]
      | some p =>
        simp only [hpd]
        rw [if_pos (hown p hpd)]
  · rw [deleteTask]
    split
    · rfl
    · cases hpd : getProjectDoc db projectId with
      | none => simp only [hpd]
      | some p =>
        simp only [hpd]
        rw [if_pos (hown p hpd)]

/-- Witness for C9: a store owned by `"alice"` queried by `"bob"`. -/
theorem taskActions_ownership_witness :
    getTasksByProjectId
        ⟨[(str "p1", ⟨str "alice", str "Proj"⟩)], []⟩ (str "p1") (str "bob") = []
    ∧ updateTask ⟨[(str "p1", ⟨str "alice", str "Proj"⟩)], []⟩
        ⟨str "t1", str "T", str "", str "To Do", Option.none, 0, Option.none,
          str "p1", Option.none, Option.none⟩ (str "bob")
        = (Option.none, ⟨[(str "p1", ⟨str "alice", str "Proj"⟩)], []⟩)
    ∧ deleteTask ⟨[(str "p1", ⟨str "alice", str "Proj"⟩)], []⟩
        (str "p1") (str "t1") (str "bob") = (false, ⟨[(str "p1", ⟨str "alice", str "Proj"⟩)], []⟩) :=
  taskActions_ownership _ _ _ _ _ rfl
    (by
      intro p hp
      have h : Option.some (⟨str "alice", str "Proj"⟩ : ProjectDoc) = Option.some p := by
        rw [← hp]
        decide
      cases h
      decide)

end TaskMaster

namespace TaskMaster

theorem hasPrefixL_append_of (n : Str) : ∀ (x y : Str), hasPrefixL n x = true →
    hasPrefixL n (x ++ y) = true := by
  induction n with
  | nil => intro x y _; rfl
  | cons a as ih =>
    intro x y h
    cases x with
    | nil => simp [hasPrefixL] at h
    | cons b bs =>
      simp only [hasPrefixL, List.cons_append, Bool.and_eq_true] at h ⊢
      exact ⟨h.1, ih bs y h.2⟩

theorem hasPrefixL_refl (n : Str) : hasPrefixL n n = true := by
  induction n with
  | nil => rfl
  | cons a as ih => simp [hasPrefixL, ih]

theorem containsSub_nil_needle (s : Str) : containsSub [] s = true := by
  cases s <;> simp [containsSub, hasPrefixL]

theorem containsSub_self_append (n b : Str) : containsSub n (n ++ b) = true := by
  cases n with
  | nil => simpa using containsSub_nil_needle b
  | cons c cs =>
    simp only [containsSub, List.cons_append, Bool.or_eq_true]
    exact Or.inl (hasPrefixL_append_of _ _ _ (hasPrefixL_refl (c :: cs)))

theorem containsSub_self (n : Str) : containsSub n n = true := by
  simpa using containsSub_self_append n []

theorem containsSub_append_left (n : Str) : ∀ (a b : Str), containsSub n a = true →
    containsSub n (a ++ b) = true := by
  intro a
  induction a with
  | nil =>
    intro b h
    cases n with
    | nil => simpa using containsSub_nil_needle b
    | cons x xs => simp [containsSub, hasPrefixL] at h
  | cons c cs ih =>
    intro b h
    simp only [containsSub, List.cons_append, Bool.or_eq_true] at h ⊢
    rcases h with h | h
    · exact Or.inl (hasPrefixL_append_of _ _ _ h)
    · exact Or.inr (ih b h)

theorem containsSub_right (n : Str) : ∀ (a b : Str), containsSub n b = true →
    containsSub n (a ++ b) = true := by
  intro a
  induction a with
  | nil => intro b h; simpa using h
  | cons c cs ih =>
    intro b h
    simp only [containsSub, List.cons_append, Bool.or_eq_true]
    exact Or.inr (ih b h)

end TaskMaster

namespace TaskMaster

/-- C4 (amended): in both flows, the rendered prompt omits the entire
instructional section of every optional field that is undefined or empty, and
includes the field value verbatim-interpolated inside its section when the
field is present and truthy; for the numeric capacity field a present value of
`0` is also treated as falsy and its section omitted. Required text fields are
always interpolated verbatim. -/
theorem promptSections (i : SprintPlanInput) (ci : ScopeCreepInput) :
    ((i.sprintDuration = Option.none ∨ i.sprintDuration = Option.some []) →
      renderSprintPrompt i = renderSprintPrompt { i with sprintDuration := Option.none })
    ∧ ((i.teamSize = Option.none ∨ i.teamSize = Option.some []) →
      renderSprintPrompt i = renderSprintPrompt { i with teamSize := Option.none })
    ∧ ((i.teamStoryPointCapacity = Option.none ∨ i.teamStoryPointCapacity = Option.some 0) →
      renderSprintPrompt i
        = renderSprintPrompt { i with teamStoryPointCapacity := Option.none })
    ∧ ((i.sprintGoal = Option.none ∨ i.sprintGoal = Option.some []) →
      renderSprintPrompt i = renderSprintPrompt { i with sprintGoal := Option.none })
    ∧ (∀ v, i.sprintDuration = Option.some v → v ≠ [] →
        containsSub (str "- Sprint Duration: " ++ v ++ str "\n")
          (renderSprintPrompt i) = true)
    ∧ (∀ v, i.teamSize = Option.some v → v ≠ [] →
        containsSub (str "- Team Size: " ++ v ++ str "\n") (renderSprintPrompt i) = true)
    ∧ (∀ n, i.teamStoryPointCapacity = Option.some n → n ≠ 0 →
        containsSub (str "- Team Capacity: " ++ intToStr n ++ str " story points per sprint\n")
          (renderSprintPrompt i) = true)
    ∧ (∀ v, i.sprintGoal = Option.some v → v ≠ [] →
        containsSub (str "- Sprint Goal: " ++ v ++ str "\n") (renderSprintPrompt i) = true)
    ∧ ((ci.originalTasksText = Option.none ∨ ci.originalTasksText = Option.some []) →
        renderScopeCreepPrompt ci
          = renderScopeCreepPrompt { ci with originalTasksText := Option.none })
    ∧ ((ci.sprintGoal = Option.none ∨ ci.sprintGoal = Option.some []) →
        renderScopeCreepPrompt ci = renderScopeCreepPrompt { ci with sprintGoal := Option.none })
    ∧ (∀ v, ci.originalTasksText = Option.some v → v ≠ [] →
        containsSub (str "Original Sprint Tasks:\n" ++ v ++ str "\n")
          (renderScopeCreepPrompt ci) = true)
    ∧ (∀ v, ci.sprintGoal = Option.some v → v ≠ [] →
        containsSub (str "Sprint Goal:\n" ++ v ++ str "\n") (renderScopeCreepPrompt ci) = true)
    ∧ containsSub ci.currentTasksText (renderScopeCreepPrompt ci) = true
    ∧ containsSub (deduplicateTasks i.tasksText)
        (renderSprintPrompt (sprintFlowInput i)) = true := by
  refine ⟨?_, ?_, ?_, ?_, ?_, ?_, ?_, ?_, ?_, ?_, ?_, ?_, ?_, ?_⟩
  · rintro (h | h) <;> simp [renderSprintPrompt, optStrSection, h]
  · rintro (h | h) <;> simp [renderSprintPrompt, optStrSection, h]
  · rintro (h | h) <;> simp [renderSprintPrompt, optNumSection, h]
  · rintro (h | h) <;> simp [renderSprintPrompt, optStrSection, h]
  · intro v hv hne
    have hS : optStrSection (str "- Sprint Duration: ") i.sprintDuration (str "\n")
        = str "- Sprint Duration: " ++ v ++ str "\n" := by
      rw [hv]; simp [optStrSection, hne]
    rw [renderSprintPrompt, hS]
    apply containsSub_append_left
    apply containsSub_append_left
    apply containsSub_append_left
    apply containsSub_append_left
    apply containsSub_append_left
    apply containsSub_append_left
    exact containsSub_right _ _ _ (containsSub_self _)
  · intro v hv hne
    have hS : optStrSection (str "- Team Size: ") i.teamSize (str "\n")
        = str "- Team Size: " ++ v ++ str "\n" := by
      rw [hv]; simp [optStrSection, hne]
    rw [renderSprintPrompt, hS]
    apply containsSub_append_left
    apply containsSub_append_left
    apply containsSub_append_left
    apply containsSub_append_left
    apply containsSub_append_left
    exact containsSub_right _ _ _ (containsSub_self _)
  · intro n hn hne
    have hS : optNumSection (str "- Team Capacity: ") i.teamStoryPointCapacity
          (str " story points per sprint\n")
        = str "- Team Capacity: " ++ intToStr n ++ str " story points per sprint\n" := by
      rw [hn]; simp [optNumSection, hne]
    rw [renderSprintPrompt, hS]
    apply containsSub_append_left
    apply containsSub_append_left
    apply containsSub_append_left
    apply containsSub_append_left
    exact containsSub_right _ _ _ (containsSub_self _)
  · intro v hv hne
    have hS : optStrSection (str "- Sprint Goal: ") i.sprintGoal (str "\n")
        = str "- Sprint Goal: " ++ v ++ str "\n" := by
      rw [hv]; simp [optStrSection, hne]
    rw [renderSprintPrompt, hS]
    apply containsSub_append_left
    apply containsSub_append_left
    apply containsSub_append_left
    exact containsSub_right _ _ _ (containsSub_self _)
  · rintro (h | h) <;> simp [renderScopeCreepPrompt, optStrSection, h]
  · rintro (h | h) <;> simp [renderScopeCreepPrompt, optStrSection, h]
  · intro v hv hne
    have hS : optStrSection (str "Original Sprint Tasks:\n") ci.originalTasksText (str "\n")
        = str "Original Sprint Tasks:\n" ++ v ++ str "\n" := by
      rw [hv]; simp [optStrSection, hne]
    rw [renderScopeCreepPrompt, hS]
    apply containsSub_append_left
    apply containsSub_append_left
    apply containsSub_append_left
    exact containsSub_right _ _ _ (containsSub_self _)
  · intro v hv hne
    have hS : optStrSection (str "Sprint Goal:\n") ci.sprintGoal (str "\n")
        = str "Sprint Goal:\n" ++ v ++ str "\n" := by
      rw [hv]; simp [optStrSection, hne]
    rw [renderScopeCreepPrompt, hS]
    apply containsSub_append_left
    exact containsSub_right _ _ _ (containsSub_self _)
  · rw [renderScopeCreepPrompt]
    apply containsSub_append_left
    apply containsSub_append_left
    apply containsSub_append_left
    apply containsSub_append_left
    apply containsSub_append_left
    exact containsSub_right _ _ _ (containsSub_self _)
  · rw [renderSprintPrompt]
    apply containsSub_append_left
    exact containsSub_right _ _ _ (containsSub_self _)

end TaskMaster

namespace TaskMaster

/-- Witness for C4 (amended): concrete renders with all optional fields
present, plus an omission instance for an empty duration field. -/
theorem promptSections_witness :
    containsSub (str "- Sprint Duration: " ++ str "2 weeks" ++ str "\n")
      (renderSprintPrompt ⟨str "Fix bug – High – 3", Option.some (str "2 weeks"),
        Option.some (str "3 devs"), Option.some 40, Option.some (str "Ship v1")⟩) = true
    ∧ containsSub (str "- Team Capacity: " ++ intToStr 40 ++ str " story points per sprint\n")
      (renderSprintPrompt ⟨str "Fix bug – High – 3", Option.some (str "2 weeks"),
        Option.some (str "3 devs"), Option.some 40, Option.some (str "Ship v1")⟩) = true
    ∧ containsSub (str "Original Sprint Tasks:\n" ++ str "Task B" ++ str "\n")
      (renderScopeCreepPrompt ⟨str "Task A", Option.some (str "Task B"),
        Option.some (str "Goal")⟩) = true
    ∧ renderSprintPrompt ⟨str "T", Option.some [], Option.none, Option.none, Option.none⟩
      = renderSprintPrompt { (⟨str "T", Option.some [], Option.none, Option.none,
          Option.none⟩ : SprintPlanInput) with sprintDuration := Option.none } := by
  obtain ⟨-, -, -, -, h5, -, h7, -, -, -, h11, -, -, -⟩ :=
    promptSections
      ⟨str "Fix bug – High – 3", Option.some (str "2 weeks"), Option.some (str "3 devs"),
        Option.some 40, Option.some (str "Ship v1")⟩
      ⟨str "Task A", Option.some (str "Task B"), Option.some (str "Goal")⟩
  exact ⟨h5 _ rfl (by decide), h7 40 rfl (by decide), h11 _ rfl (by decide),
    (promptSections ⟨str "T", Option.some [], Option.none, Option.none, Option.none⟩
      ⟨str "Task A", Option.none, Option.none⟩).1 (Or.inr rfl)⟩

/-- Counterexample for C4 as stated: a capacity of `0` is present and
non-empty, yet its instructional section is omitted - the render equals the
render with the field undefined, and the section text for the value `0` does
not occur in the prompt. -/
theorem capacityZero_counterexample :
    (⟨str "Task A – High – 1", Option.none, Option.none, Option.some 0,
        Option.none⟩ : SprintPlanInput).teamStoryPointCapacity = Option.some 0
    ∧ renderSprintPrompt
        ⟨str "Task A – High – 1", Option.none, Option.none, Option.some 0, Option.none⟩
      = renderSprintPrompt
        ⟨str "Task A – High – 1", Option.none, Option.none, Option.none, Option.none⟩
    ∧ containsSub (str "- Team Capacity: 0 story points per sprint")
        (renderSprintPrompt
          ⟨str "Task A – High – 1", Option.none, Option.none, Option.some 0, Option.none⟩)
      = false :=
  ⟨rfl, rfl, by decide⟩

/-- C5 (amended): the scope-creep flow rejects an empty task list with a
field-scoped validation error before any model call (the result does not
depend on the model), and the sprint-planner page schema rejects it
client-side; the sprint-planner flow itself, however, accepts an empty task
list and forwards it (deduplicated) to the model. -/
theorem emptyTaskList_validation
    (mfScope : Str → Except Str (Option ScopeCreepOutput))
    (mfSprint : Str → Except Str (Option SprintPlanOutput))
    (ci : ScopeCreepInput) (si : SprintPlanInput)
    (hci : ci.currentTasksText = []) (hsi : si.tasksText = []) :
    scopeCreepDetectorFlow mfScope ci
        = Except.error (FlowFailure.validation (str "currentTasksText") scopeRequiredMsg)
    ∧ sprintClientValidate si
        = Except.error (FlowFailure.validation (str "tasksText")
            (str "Tasks text cannot be empty."))
    ∧ suggestSprintPlan mfSprint si
        = sprintModelResult (mfSprint (renderSprintPrompt (sprintFlowInput si))) := by
  exact ⟨by simp [scopeCreepDetectorFlow, hci], by simp [sprintClientValidate, hsi], rfl⟩

/-- Witness for C5 (amended) at concrete empty inputs. -/
theorem emptyTaskList_validation_witness :
    scopeCreepDetectorFlow (fun _ => Except.ok Option.none) ⟨[], Option.none, Option.none⟩
        = Except.error (FlowFailure.validation (str "currentTasksText") scopeRequiredMsg)
    ∧ sprintClientValidate ⟨[], Option.none, Option.none, Option.none, Option.none⟩
        = Except.error (FlowFailure.validation (str "tasksText")
            (str "Tasks text cannot be empty."))
    ∧ suggestSprintPlan (fun _ => Except.ok Option.none)
        ⟨[], Option.none, Option.none, Option.none, Option.none⟩
        = sprintModelResult (Except.ok Option.none) :=
  emptyTaskList_validation _ _ _ _ rfl rfl

/-- Counterexample for C5 as stated: the sprint-planner flow performs no
non-empty validation - an input with an empty task list is sent upstream and
the model output is returned as the flow result, with no validation error. -/
theorem sprintFlow_emptyTaskList_counterexample :
    suggestSprintPlan
        (fun _ => Except.ok (Option.some ⟨str "## Sprint Plan\nN/A", Option.none⟩))
        ⟨[], Option.none, Option.none, Option.none, Option.none⟩
      = Except.ok ⟨str "## Sprint Plan\nN/A", Option.none⟩ := by
  rfl

/-- C6 (amended): the scope-creep flow returns the model's creep
classification unchanged whenever the current task list is non-empty - no
post-check rules out `creepLevel = None`; the non-None expectation for newly
added tasks is only encoded in the prompt instructions. -/
theorem scopeFlow_passthrough (ci : ScopeCreepInput) (o : ScopeCreepOutput)
    (hci : ci.currentTasksText ≠ []) :
    scopeCreepDetectorFlow (fun _ => Except.ok (Option.some o)) ci = Except.ok o
    ∧ containsSub (str "**\"Low\":** Minor additions") (renderScopeCreepPrompt ci) = true := by
  constructor
  · simp [scopeCreepDetectorFlow, hci]
  · rw [renderScopeCreepPrompt]
    apply containsSub_append_left
    apply containsSub_append_left
    apply containsSub_append_left
    apply containsSub_append_left
    apply containsSub_append_left
    apply containsSub_append_left
    decide

/-- Witness for C6 (amended) at a concrete input and model output. -/
theorem scopeFlow_passthrough_witness :
    scopeCreepDetectorFlow
        (fun _ => Except.ok (Option.some ⟨str "Report", CreepLevel.Low, Option.none⟩))
        ⟨str "Task A", Option.some (str "Task A"), Option.none⟩
      = Except.ok ⟨str "Report", CreepLevel.Low, Option.none⟩
    ∧ containsSub (str "**\"Low\":** Minor additions")
        (renderScopeCreepPrompt ⟨str "Task A", Option.some (str "Task A"), Option.none⟩)
      = true :=
  scopeFlow_passthrough _ _ (by decide)

/-- Counterexample for C6 as stated: the current tasks contain every original
line plus a new one, yet a model response with `creepLevel = None` is
returned unchanged by the flow. -/
theorem scopeCreep_none_counterexample :
    (∀ l ∈ jsSplitNL (str "Task A – High – 3"),
        l ∈ jsSplitNL (str "Task A – High – 3\nTask B – Low – 1"))
    ∧ (str "Task B – Low – 1") ∈ jsSplitNL (str "Task A – High – 3\nTask B – Low – 1")
    ∧ (str "Task B – Low – 1") ∉ jsSplitNL (str "Task A – High – 3")
    ∧ scopeCreepDetectorFlow
        (fun _ => Except.ok (Option.some ⟨str "Stable scope.", CreepLevel.None, Option.none⟩))
        ⟨str "Task A – High – 3\nTask B – Low – 1",
          Option.some (str "Task A – High – 3"), Option.none⟩
      = Except.ok ⟨str "Stable scope.", CreepLevel.None, Option.none⟩ := by
  exact ⟨by decide, by decide, by decide, by rfl⟩

/-- C7 (amended): the load-tasks action fills the form with exactly the
`'To Do'` tasks of the fetched list, one line per task, each formatted as
`title – priority – effort` with `"N/A"` substituted for a missing priority,
`0` for a missing effort - and `"Untitled Task"` substituted for an empty
title; for every task with a non-empty title the line is exactly the claim's
`title – priority – effort` line. -/
theorem loadedTasksText_spec (projectTasks : List Task) :
    loadedTasksText projectTasks
        = joinNL ((projectTasks.filter (fun t => t.status = str "To Do")).map formatTodoLine)
    ∧ (∀ t : Task, t ∈ projectTasks.filter (fun t => t.status = str "To Do")
          ↔ t ∈ projectTasks ∧ t.status = str "To Do")
    ∧ (∀ t : Task, t.title ≠ [] → formatTodoLine t = claimTodoLine t) := by
  refine ⟨rfl, ?_, ?_⟩
  · intro t
    simp [List.mem_filter]
  · intro t ht
    rw [formatTodoLine, claimTodoLine, jsStrOr, if_neg ht]
    have heff : jsNumOr t.effort 0 = t.effort.getD 0 := by
      cases h : t.effort with
      | none => rfl
      | some n =>
        by_cases hn : n = 0
        · simp [jsNumOr, hn]
        · simp [jsNumOr, hn]
    rw [heff]

/-- Witness for C7 (amended) at a concrete titled task. -/
theorem loadedTasksText_spec_witness :
    loadedTasksText [⟨str "t1", str "Fix login", str "d", str "To Do", Option.none, 0,
        Option.none, str "p1", Option.some TaskPriority.High, Option.some 3⟩]
        = joinNL (([(⟨str "t1", str "Fix login", str "d", str "To Do", Option.none, 0,
            Option.none, str "p1", Option.some TaskPriority.High, Option.some 3⟩ : Task)].filter
              (fun t => t.status = str "To Do")).map formatTodoLine)
    ∧ formatTodoLine ⟨str "t1", str "Fix login", str "d", str "To Do", Option.none, 0,
          Option.none, str "p1", Option.some TaskPriority.High, Option.some 3⟩
        = claimTodoLine ⟨str "t1", str "Fix login", str "d", str "To Do", Option.none, 0,
          Option.none, str "p1", Option.some TaskPriority.High, Option.some 3⟩ :=
  ⟨(loadedTasksText_spec _).1,
    (loadedTasksText_spec [⟨str "t1", str "Fix login", str "d", str "To Do", Option.none, 0,
      Option.none, str "p1", Option.some TaskPriority.High, Option.some 3⟩]).2.2 _ (by decide)⟩

/-- Counterexample for C7 as stated: a `'To Do'` task with an empty title is
loaded as the line `"Untitled Task – N/A – 0"`, not as the claim's
`"<title> – <priority> – <effort>"` line (which would start with the empty
title). -/
theorem loadedTasksText_counterexample :
    loadedTasksText [⟨str "t1", [], [], str "To Do", Option.none, 0, Option.none,
        str "p1", Option.none, Option.none⟩]
      = str "Untitled Task – N/A – 0"
    ∧ claimTodoLine ⟨str "t1", [], [], str "To Do", Option.none, 0, Option.none,
        str "p1", Option.none, Option.none⟩
      = str " – N/A – 0"
    ∧ loadedTasksText [⟨str "t1", [], [], str "To Do", Option.none, 0, Option.none,
        str "p1", Option.none, Option.none⟩]
      ≠ joinNL [claimTodoLine ⟨str "t1", [], [], str "To Do", Option.none, 0, Option.none,
        str "p1", Option.none, Option.none⟩] :=
  ⟨by decide, by decide, by decide⟩

end TaskMaster
